import Mathlib

/-!
Verification of the `ioutils.py` utility module of the Groundtruther
repository: a shallow embedding of its Python functions and proofs of the
behavioural properties claimed by the specification.

The embedding models Python values as the inductive type `PyVal`
(strings, integers, NaN, lists, and insertion-ordered dicts), the
annotation-parsing pipeline built on `pandas.read_csv` /
`DataFrame.apply` / `groupby` / `agg` / `to_dict`, and the layer
export/upload helpers with their external collaborators (QGIS layer,
vector file writer, GDAL, HTTP client) supplied as black-box inputs.
-/

/-- A Python runtime value as observed in the module's data flow:
text, integer, the float NaN used by pandas for missing cells, a list,
or an insertion-ordered dict with string keys. -/
inductive PyVal where
  | str (s : String)
  | int (n : Int)
  | float (lit : String)
  | nan
  | list (xs : List PyVal)
  | dict (entries : List (String × PyVal))

/-- Python string comparison, step 1: strict lexicographic order on the
underlying character sequences, comparing Unicode code points position by
position (Python compares `str` values exactly this way). -/
def lexLt : List Char → List Char → Bool
  | [], [] => false
  | [], _ :: _ => true
  | _ :: _, [] => false
  | a :: as, b :: bs => if a < b then true else if b < a then false else lexLt as bs

theorem lexLt_asymm : ∀ {as bs : List Char}, lexLt as bs = true → lexLt bs as = false
  | [], [], h => by simp [lexLt] at h
  | [], _ :: _, _ => rfl
  | _ :: _, [], h => by simp [lexLt] at h
  | a :: as, b :: bs, h => by
    rcases lt_trichotomy a b with hab | hab | hab
    · simp [lexLt, hab, not_lt_of_gt hab]
    · subst hab
      simp only [lexLt, lt_irrefl, if_false] at h ⊢
      exact lexLt_asymm h
    · simp [lexLt, hab, not_lt_of_gt hab] at h

theorem lexLt_trans : ∀ {as bs cs : List Char},
    lexLt as bs = true → lexLt bs cs = true → lexLt as cs = true
  | [], _, [], _, h2 => by cases bs₀ : ‹List Char› <;> simp_all [lexLt]
  | [], _, _ :: _, _, _ => rfl
  | _ :: _, [], _, h1, _ => by simp [lexLt] at h1
  | _ :: _, _ :: _, [], _, h2 => by simp [lexLt] at h2
  | a :: as, b :: bs, c :: cs, h1, h2 => by
    rcases lt_trichotomy a b with hab | hab | hab
    · rcases lt_trichotomy b c with hbc | hbc | hbc
      · simp [lexLt, lt_trans hab hbc, not_lt_of_gt (lt_trans hab hbc)]
      · subst hbc; simp [lexLt, hab, not_lt_of_gt hab]
      · simp [lexLt, not_lt_of_gt hbc, hbc] at h2
    · subst hab
      simp only [lexLt, lt_irrefl, if_false] at h1
      rcases lt_trichotomy a c with hac | hac | hac
      · simp [lexLt, hac]
      · subst hac
        simp only [lexLt, lt_irrefl, if_false] at h2 ⊢
        exact lexLt_trans h1 h2
      · simp [lexLt, not_lt_of_gt hac, hac] at h2
    · simp [lexLt, not_lt_of_gt hab, hab] at h1

theorem lexLt_eq_of_not_lt : ∀ {as bs : List Char},
    lexLt as bs = false → lexLt bs as = false → as = bs
  | [], [], _, _ => rfl
  | [], _ :: _, h1, _ => by simp [lexLt] at h1
  | _ :: _, [], _, h2 => by simp [lexLt] at h2
  | a :: as, b :: bs, h1, h2 => by
    rcases lt_trichotomy a b with hab | hab | hab
    · simp [lexLt, hab] at h1
    · subst hab
      simp only [lexLt, lt_irrefl, if_false] at h1 h2
      rw [lexLt_eq_of_not_lt h1 h2]
    · simp [lexLt, hab] at h2

/-- Python string comparison, step 2: `a ≤ b` on `str` values, the order
`pandas.groupby` sorts its group keys with. -/
def StrLe (a b : String) : Prop := lexLt b.toList a.toList = false

instance : DecidableRel StrLe := fun a b =>
  inferInstanceAs (Decidable (lexLt b.toList a.toList = false))

theorem bool_eq_false {b : Bool} (h : ¬b = true) : b = false := by
  cases b <;> simp_all

instance : IsTotal String StrLe := by
  constructor
  intro a b
  by_cases h : lexLt b.toList a.toList = true
  · exact Or.inr (lexLt_asymm h)
  · exact Or.inl (bool_eq_false h)

instance : IsTrans String StrLe := by
  constructor
  intro a b c h1 h2
  unfold StrLe at h1 h2 ⊢
  by_cases hca : lexLt c.toList a.toList = true
  · by_cases hbc : lexLt b.toList c.toList = true
    · rw [lexLt_trans hbc hca] at h1
      simp at h1
    · have hbceq : b.toList = c.toList := lexLt_eq_of_not_lt (bool_eq_false hbc) h2
      rw [hbceq, hca] at h1
      simp at h1
  · exact bool_eq_false hca

instance : IsAntisymm String StrLe := by
  constructor
  intro a b h1 h2
  have : a.toList = b.toList := lexLt_eq_of_not_lt h2 h1
  exact String.toList_inj.mp this

/-- Python `text.replace(".jpg", "")` (the operation behind
`Series.str.replace(".jpg", "", regex=False)`): scan left to right and
delete every non-overlapping occurrence of `.jpg`, resuming the scan just
after each deleted occurrence. -/
def removeJpg : List Char → List Char
  | '.' :: 'j' :: 'p' :: 'g' :: cs => removeJpg cs
  | c :: cs => c :: removeJpg cs
  | [] => []

/-- `removeJpg` on a Python `str` value. -/
def removeJpgStr (s : String) : String := (removeJpg s.toList).asString

/-- Does `pandas.read_csv` parse this cell token as a numeric value?
Modelled for integer literals (an optional sign followed by digits),
which covers every numeric cell exercised here. -/
def tokenIsInt (s : String) : Bool :=
  match s.toList with
  | [] => false
  | '-' :: rest => !rest.isEmpty && rest.all Char.isDigit
  | '+' :: rest => !rest.isEmpty && rest.all Char.isDigit
  | l => l.all Char.isDigit

/-- Numeric value of a digit string, accumulator style. -/
def digitsToNat : List Char → Nat → Nat
  | [], acc => acc
  | c :: cs, acc => digitsToNat cs (acc * 10 + (c.toNat - 48))

/-- Integer value of a numeric cell token. -/
def tokenToInt (s : String) : Int :=
  match s.toList with
  | '-' :: rest => -(digitsToNat rest 0 : Int)
  | '+' :: rest => (digitsToNat rest 0 : Int)
  | l => (digitsToNat l 0 : Int)

/-- The default NA spellings of `pandas.read_csv`: a cell holding exactly
one of these tokens is read as a missing value in any column. -/
def naTokens : List String :=
  ["", "#N/A", "#N/A N/A", "#NA", "-1.#IND", "-1.#QNAN", "-NaN", "-nan",
   "1.#IND", "1.#QNAN", "<NA>", "N/A", "NA", "NULL", "NaN", "None",
   "n/a", "nan", "null"]

/-- Is this cell token one of the default NA spellings? -/
def tokenIsNA (s : String) : Bool := naTokens.any fun x => decide (x = s)

/-- Strip one optional leading sign character. -/
def dropSign : List Char → List Char
  | '-' :: rest => rest
  | '+' :: rest => rest
  | l => l

/-- Nonempty all-digit character sequence. -/
def isDigits (l : List Char) : Bool := !l.isEmpty && l.all Char.isDigit

/-- Decimal mantissa grammar of a numeric literal: `digits`, `digits.`,
`digits.digits`, or `.digits`. -/
def mantissaOk (l : List Char) : Bool :=
  match l.span Char.isDigit with
  | (ds, []) => !ds.isEmpty
  | (ds, '.' :: frac) => (!ds.isEmpty || !frac.isEmpty) && frac.all Char.isDigit
  | _ => false

/-- Does `pandas.read_csv` parse this cell token as a numeric value? An
optional sign, a decimal mantissa, and an optional exponent — covering
integer and float literals. (Textual float spellings such as `inf` are
not modelled.) -/
def tokenIsNum (s : String) : Bool :=
  match (dropSign s.toList).span (fun c => !(decide (c = 'e') || decide (c = 'E'))) with
  | (mant, []) => mantissaOk mant
  | (mant, _ :: ex) => mantissaOk mant && isDigits (dropSign ex)

/-- The fixed column names `parse_annotation` assigns to the data rows,
in order (`names=[...]` in the source). -/
def csvNames : List String :=
  ["Detection", "Imagename", "Frame_Identifier", "TL_x", "TL_y", "BR_x", "BR_y",
   "detection_Confidence", "Target_Length", "Species", "Confidence"]

/-- Number of named columns of the fixed schema. -/
def numCols : Nat := 11

/-- How `pandas.read_csv` lines up one tokenized data row against the 11
assigned column names, given the table width `w` established by the
first data row (the caller rejects rows wider than `w`). When `w` is at
most 11, the row's missing trailing cells are filled with NaN (`none`
here); when `w` exceeds 11 the leading `w - 11` columns are promoted to
the index once for the whole table, so each row is padded to `w` and its
leading index cells dropped. The result always has exactly `numCols`
cells. -/
def alignRow (w : Nat) (fields : List String) : List (Option String) :=
  if w ≤ numCols then
    fields.map some ++ List.replicate (numCols - fields.length) none
  else
    (fields.map some ++ List.replicate (w - fields.length) none).drop (w - numCols)

/-- `pandas.read_csv` column dtype inference: a column gets a numeric
dtype exactly when every present, non-NA cell token of the column parses
as a number; otherwise the whole column stays textual (object dtype). -/
def colNumeric (rows : List (List (Option String))) (j : Nat) : Bool :=
  rows.all fun r =>
    match (r.get? j).getD none with
    | none => true
    | some tok => tokenIsNA tok || tokenIsNum tok

/-- Value of one cell after dtype inference: missing cells and NA
spellings become NaN; in a numeric column an integer token becomes its
integer and any other numeric token a float (kept as its literal: float
arithmetic is not modelled, and the widening of integer cells that
pandas performs in a float64 column is a representation difference no
claim observes); in a textual column tokens stay text. -/
def convertCell (numeric : Bool) : Option String → PyVal
  | none => PyVal.nan
  | some tok =>
    if tokenIsNA tok then PyVal.nan
    else if numeric then
      (if tokenIsInt tok then PyVal.int (tokenToInt tok) else PyVal.float tok)
    else PyVal.str tok

/-- Model of `pd.read_csv(annotation_file, skiprows=[0, 1], names=names)`
on an already-tokenized source (a list of rows, each a list of cell
tokens): drop the first two rows, establish the expected width from the
first data row and raise `ParserError` if any later row is wider, align
each row against the 11 column names, and apply per-column dtype
inference. Tokenization itself (quoting, separators) is below this
model. -/
def readCsv (src : List (List String)) : Except String (List (List PyVal)) :=
  match src.drop 2 with
  | [] => Except.ok []
  | first :: rest =>
    let w := first.length
    match (first :: rest).find? (fun r => decide (w < r.length)) with
    | some bad =>
      Except.error ("ParserError: Expected " ++ toString w ++ " fields, saw " ++
        toString bad.length)
    | none =>
      let data := (first :: rest).map (alignRow w)
      Except.ok (data.map fun r =>
        (List.range numCols).map fun j =>
          convertCell (colNumeric data j) ((r.get? j).getD none))

/-- The `.str.replace(".jpg", "", regex=False)` step on one cell: replace
on a string, leave NaN (and any non-string) unchanged. -/
def jpgStrip : PyVal → PyVal
  | PyVal.str s => PyVal.str (removeJpgStr s)
  | v => v

/-- Does the `Imagename` column have a non-object (numeric) dtype?  When
the frame is nonempty and no cell of column 1 is a string, pandas gives
the column a numeric/float dtype and the `.str` accessor raises. -/
def imgColAllNumeric (rows : List (List PyVal)) : Bool :=
  rows.all fun r =>
    match (r.get? 1).getD PyVal.nan with
    | PyVal.str _ => false
    | _ => true

/-- Apply the `.jpg` replacement to the `Imagename` column (index 1). -/
def stripRows (rows : List (List PyVal)) : List (List PyVal) :=
  rows.map fun r => r.set 1 (jpgStrip ((r.get? 1).getD PyVal.nan))

/-- The coordinate-column order used to build each bounding box
(`columns = [...]` in the source). -/
def bboxColumns : List String :=
  ["TL_x", "BR_y", "BR_x", "BR_y", "BR_x", "TL_y", "TL_x", "TL_y"]

/-- `row[i]` for a column label `i`: position of the label among the
assigned column names, then that cell of the row. -/
def rowGet (r : List PyVal) (c : String) : PyVal :=
  (r.get? (csvNames.findIdx fun x => decide (x = c))).getD PyVal.nan

/-- Model of `bbox_parser(row, columns, name)`: builds the Python dict
`{name: [row[i] for i in columns]}` — note the 8-number list is wrapped
in a single-key dict, not returned bare. -/
def bboxParser (r : List PyVal) (columns : List String) (nm : String) : PyVal :=
  PyVal.dict [(nm, PyVal.list (columns.map (rowGet r)))]

/-- The `imageannotation["bbox"] = imageannotation.apply(bbox_parser, ...)`
step: append the per-row bbox value as a 12th column (index 11). -/
def withBbox (rows : List (List PyVal)) : List (List PyVal) :=
  rows.map fun r => r ++ [bboxParser r bboxColumns "bbox"]

/-- The `Imagename` cell of a row. -/
def rowImg (r : List PyVal) : PyVal := (r.get? 1).getD PyVal.nan

/-- The string image identifiers of the rows, in row order. `groupby`
keys come from these (rows whose identifier is NaN are dropped by
`groupby`'s default `dropna=True`). -/
def annotIds (rows : List (List PyVal)) : List String :=
  rows.filterMap fun r =>
    match rowImg r with
    | PyVal.str s => some s
    | _ => none

/-- The group keys produced by `groupby("Imagename")`: the distinct
string identifiers, sorted ascending (pandas `groupby` default
`sort=True` sorts group keys with Python string order). -/
def groupKeys (rows : List (List PyVal)) : List String :=
  List.insertionSort StrLe (annotIds rows).dedup

/-- Does this row belong to the group of identifier `k`? -/
def rowMatches (k : String) (r : List PyVal) : Bool :=
  match rowImg r with
  | PyVal.str s => decide (s = k)
  | _ => false

/-- The rows of one group, in original row order. -/
def rowsFor (rows : List (List PyVal)) (k : String) : List (List PyVal) :=
  rows.filter (rowMatches k)

/-- Column `j` of a list of rows, as a Python list's elements. -/
def colList (rows : List (List PyVal)) (j : Nat) : List PyVal :=
  rows.map fun r => (r.get? j).getD PyVal.nan

/-- One group record of `.agg({"bbox": list, "Species": list,
"Confidence": list}).to_dict("index")`: the three parallel lists of the
group's rows. Column indices: bbox 11, Species 9, Confidence 10. -/
def groupVal (rows : List (List PyVal)) (k : String) : PyVal :=
  PyVal.dict
    [("bbox", PyVal.list (colList (rowsFor rows k) 11)),
     ("Species", PyVal.list (colList (rowsFor rows k) 9)),
     ("Confidence", PyVal.list (colList (rowsFor rows k) 10))]

/-- The data frame of a source that tokenized without error (the empty
frame otherwise; used only to state facts about successful parses). -/
def frameOf (src : List (List String)) : List (List PyVal) :=
  match readCsv src with
  | Except.ok frame => frame
  | Except.error _ => []

/-- The fully processed frame: parsed rows, `.jpg`-stripped identifiers,
bbox column appended. -/
def procRows (src : List (List String)) : List (List PyVal) :=
  withBbox (stripRows (frameOf src))

/-- Model of `parse_annotation(annotation_file)` on a tokenized source.
Returns the per-image mapping as an insertion-ordered association list
(Python dicts preserve insertion order, so the key order of
`to_dict("index")` is observable). The modelled failures, in program
order: the tokenizer's `ParserError` on an over-wide data row, then the
`.str` accessor's `AttributeError` on a non-object-dtype `Imagename`
column; the pipeline has no other raising step for tokenized input. -/
def parseAnnot (src : List (List String)) : Except String (List (String × PyVal)) :=
  match readCsv src with
  | Except.error e => Except.error e
  | Except.ok frame =>
    if !frame.isEmpty && imgColAllNumeric frame then
      Except.error "AttributeError: Can only use .str accessor with string values"
    else
      let rows := withBbox (stripRows frame)
      Except.ok ((groupKeys rows).map fun k => (k, groupVal rows k))

/-- Classification of a QGIS map layer (`layer.type()`). -/
inductive LayerKind where
  | vector
  | raster
  | other
deriving DecidableEq

/-- Black-box model of a QGIS map layer: the attributes the module reads.
Extent corner values are opaque collaborator values (`PyVal`). -/
structure Layer where
  lname : String
  kind : LayerKind
  geomTypeName : String
  lfields : List (String × String)
  featureCount : Nat
  crsAuthid : String
  xmin : PyVal
  xmax : PyVal
  ymin : PyVal
  ymax : PyVal
  dataSrc : String

/-- Return status of `QgsVectorFileWriter.writeAsVectorFormat`:
the `NoError` sentinel, or any other error code. -/
inductive WriteStatus where
  | noError
  | errCode (c : Nat)
deriving DecidableEq

/-- Textual form of a non-sentinel writer status, as interpolated into
the error message by the Python f-string. -/
def WriteStatus.msgText : WriteStatus → String
  | WriteStatus.noError => "NoError"
  | WriteStatus.errCode c => toString c

/-- Black-box model of one `requests.post` response: status code, the
JSON-parsed body (`response.json()`), and the raw body text
(`response.text`). -/
structure HttpResp where
  status : Nat
  jsonBody : PyVal
  rawText : String

/-- Model of `get_layer_info(layer)`: `None` gives the error dict;
otherwise the flat info dict is built in the source's key insertion
order, with the vector-only (or raster-only) keys in the middle. -/
def getLayerInfo (layer : Option Layer) : PyVal :=
  match layer with
  | none => PyVal.dict [("error", PyVal.str "No active layer selected")]
  | some l =>
    let base := [("name", PyVal.str l.lname)]
    let typed :=
      match l.kind with
      | LayerKind.vector =>
        base ++
          [("type", PyVal.str "vector"),
           ("geometry_type", PyVal.str l.geomTypeName),
           ("fields", PyVal.dict (l.lfields.map fun p => (p.1, PyVal.str p.2))),
           ("feature_count", PyVal.int l.featureCount)]
      | LayerKind.raster => base ++ [("type", PyVal.str "raster")]
      | LayerKind.other => base
    PyVal.dict
      (typed ++
        [("crs", PyVal.str l.crsAuthid),
         ("extent", PyVal.dict
           [("xmin", l.xmin), ("xmax", l.xmax), ("ymin", l.ymin), ("ymax", l.ymax)]),
         ("data_source", PyVal.str l.dataSrc)])

/-- Model of `export_layer_to_geojson(layer, output_path)`, with the
writer's status supplied as the collaborator's answer. -/
def exportLayerToGeojson (layer : Option Layer) (outputPath : String)
    (wr : WriteStatus) : PyVal :=
  match layer with
  | none => PyVal.dict [("error", PyVal.str "No active vector layer selected")]
  | some l =>
    if l.kind ≠ LayerKind.vector then
      PyVal.dict [("error", PyVal.str "No active vector layer selected")]
    else
      let outputFile := outputPath ++ "/" ++ l.lname ++ ".geojson"
      match wr with
      | WriteStatus.noError =>
        PyVal.dict [("success", PyVal.str ("Layer exported successfully to " ++ outputFile))]
      | WriteStatus.errCode c =>
        PyVal.dict [("error", PyVal.str ("Failed to export layer. Error code: " ++ toString c))]

/-- Model of `send_layer_as_geojson(layer, api_endpoint)`. After the
layer check, the writer status only feeds a console print (`if error ==
QgsVectorFileWriter.NoError: print(...)`); the function then reads the
temp file and POSTs it regardless of that status, branching only on the
HTTP status code. -/
def sendLayerAsGeojson (layer : Option Layer) (_wr : WriteStatus)
    (_geojsonData : String) (resp : HttpResp) : PyVal :=
  match layer with
  | none => PyVal.dict [("error", PyVal.str "No active vector layer selected")]
  | some l =>
    if l.kind ≠ LayerKind.vector then
      PyVal.dict [("error", PyVal.str "No active vector layer selected")]
    else if resp.status = 200 then
      PyVal.dict
        [("success", PyVal.str "Layer successfully sent to the API"),
         ("response", resp.jsonBody)]
    else
      PyVal.dict
        [("error", PyVal.str ("Failed to send GeoJSON to API. Status code: " ++ toString resp.status)),
         ("response", PyVal.str resp.rawText)]

/-- Model of `send_layer_as_geojson_using_gdal_(layer, api_endpoint)`:
export to GeoPackage (non-sentinel status is an error, with a
"to GPKG" message), open with the GDAL driver, convert with `ogr2ogr`,
then POST and branch on the HTTP status code. -/
def sendLayerAsGeojsonViaGdal (layer : Option Layer) (wr : WriteStatus)
    (driverFound : Bool) (openOk : Bool) (ogrExit : Int)
    (_geojsonData : String) (resp : HttpResp) : PyVal :=
  match layer with
  | none => PyVal.dict [("error", PyVal.str "No active vector layer selected")]
  | some l =>
    if l.kind ≠ LayerKind.vector then
      PyVal.dict [("error", PyVal.str "No active vector layer selected")]
    else if wr ≠ WriteStatus.noError then
      PyVal.dict
        [("error", PyVal.str ("Failed to export layer to GPKG. Error code: " ++ wr.msgText))]
    else if !driverFound then
      PyVal.dict [("error", PyVal.str "GDAL does not support GeoPackage format")]
    else if !openOk then
      PyVal.dict [("error", PyVal.str "Failed to open the GeoPackage file with OGR")]
    else if ogrExit ≠ 0 then
      PyVal.dict [("error", PyVal.str "Failed to convert GeoPackage to GeoJSON using ogr2ogr")]
    else if resp.status = 200 then
      PyVal.dict
        [("success", PyVal.str "Layer successfully sent to the API"),
         ("response", resp.jsonBody)]
    else
      PyVal.dict
        [("error", PyVal.str ("Failed to send GeoJSON to API. Status code: " ++ toString resp.status)),
         ("response", PyVal.str resp.rawText)]

/-- The module-level names of `ioutils.py`: its imports and its own
top-level functions. These are the globals visible inside any of its
function bodies. -/
def moduleGlobals : List String :=
  ["np", "pd", "QgsMapLayer", "QgsWkbTypes", "QgsVectorFileWriter",
   "QgsCoordinateTransformContext", "QgsProject", "QgsVectorLayerExporter",
   "json", "requests", "StringIO", "tempfile", "os", "ogr", "osr", "uuid",
   "bbox_parser", "parse_annotation", "get_layer_info",
   "export_layer_to_geojson", "send_layer_as_geojson",
   "send_layer_as_geojson_using_gdal_", "convert_to_geojson_using_gdal"]

/-- The names bound in the scope of `convert_to_geojson_using_gdal`:
its two parameters and every local it assigns. -/
def convertScopeNames : List String :=
  ["input_path", "output_path", "input_ds", "geojson_driver", "output_ds",
   "i", "input_layer", "output_layer", "feature", "f", "geojson_data",
   "headers", "response"]

/-- Python name resolution for the body of a module-level function:
a name is bound if it is a local/parameter or a module global. -/
def nameBound (locals globals : List String) (n : String) : Bool :=
  locals.any (fun x => decide (x = n)) || globals.any (fun x => decide (x = n))

/-- Model of `convert_to_geojson_using_gdal(input_path, output_path=None)`.
Early failures return bare strings (not dicts). Reaching the upload step
evaluates the name `api_endpoint` in `requests.post(api_endpoint, ...)`;
the model resolves it against the function's scope and the module
globals, raising `NameError` when it is bound in neither. -/
def convertToGeojsonViaGdal (inputPath : String) (outputPathOpt : Option String)
    (uuidHex : String) (inputOpens driverFound createOk : Bool)
    (_geojsonData : String) (resp : HttpResp) : Except String PyVal :=
  let outputPath :=
    match outputPathOpt with
    | none => uuidHex ++ ".geojson"
    | some p => p
  if !inputOpens then
    Except.ok (PyVal.str ("Failed to open input file: " ++ inputPath))
  else if !driverFound then
    Except.ok (PyVal.str "GDAL GeoJSON driver not found")
  else if !createOk then
    Except.ok (PyVal.str ("Failed to create output GeoJSON file: " ++ outputPath))
  else if nameBound convertScopeNames moduleGlobals "api_endpoint" then
    Except.ok
      (if resp.status = 200 then
        PyVal.dict
          [("success", PyVal.str "Layer successfully sent to the API"),
           ("response", resp.jsonBody)]
      else
        PyVal.dict
          [("error", PyVal.str ("Failed to send GeoJSON to API. Status code: " ++ toString resp.status)),
           ("response", PyVal.str resp.rawText)])
  else
    Except.error "NameError: name api_endpoint is not defined"

/-- Tokenized source for the specification's worked example: two header
lines, then two rows for image `img1.jpg` with coordinates (0,0,10,10)
and (5,5,15,15), species `tuna`/`shark`, confidence 1 and 2. -/
def exSrc : List (List String) :=
  [["hdr"], ["meta"],
   ["d1", "img1.jpg", "f1", "0", "0", "10", "10", "9", "100", "tuna", "1"],
   ["d2", "img1.jpg", "f2", "5", "5", "15", "15", "8", "200", "shark", "2"]]

/-- The group record `parse_annotation` actually produces on `exSrc`:
each bbox entry is the single-key dict `bbox_parser` returned, wrapping
the 8-number list. -/
def exActualRecord : PyVal :=
  PyVal.dict
    [("bbox", PyVal.list
       [PyVal.dict [("bbox", PyVal.list
          [PyVal.int 0, PyVal.int 10, PyVal.int 10, PyVal.int 10,
           PyVal.int 10, PyVal.int 0, PyVal.int 0, PyVal.int 0])],
        PyVal.dict [("bbox", PyVal.list
          [PyVal.int 5, PyVal.int 15, PyVal.int 15, PyVal.int 15,
           PyVal.int 15, PyVal.int 5, PyVal.int 5, PyVal.int 5])]]),
     ("Species", PyVal.list [PyVal.str "tuna", PyVal.str "shark"]),
     ("Confidence", PyVal.list [PyVal.int 1, PyVal.int 2])]

/-- The group record the claim describes on `exSrc`: bbox entries as bare
8-number lists. -/
def exClaimedRecord : PyVal :=
  PyVal.dict
    [("bbox", PyVal.list
       [PyVal.list
          [PyVal.int 0, PyVal.int 10, PyVal.int 10, PyVal.int 10,
           PyVal.int 10, PyVal.int 0, PyVal.int 0, PyVal.int 0],
        PyVal.list
          [PyVal.int 5, PyVal.int 15, PyVal.int 15, PyVal.int 15,
           PyVal.int 15, PyVal.int 5, PyVal.int 5, PyVal.int 5]]),
     ("Species", PyVal.list [PyVal.str "tuna", PyVal.str "shark"]),
     ("Confidence", PyVal.list [PyVal.int 1, PyVal.int 2])]

/-- Shape probe telling the two candidate outputs on `exSrc` apart: is
the first entry of the `bbox` list of the first group a dict? -/
def firstBboxIsDict : Except String (List (String × PyVal)) → Bool
  | Except.ok ((_, PyVal.dict ((_, PyVal.list (PyVal.dict _ :: _)) :: _)) :: _) => true
  | _ => false

/-- Tokenized source violating the claimed error conditions of the
parser: its single data row has only 9 fields (not 11) and a non-numeric
coordinate `TL_x = "abc"`. -/
def badSrc : List (List String) :=
  [["hdr"], ["meta"],
   ["det", "imgX", "f", "abc", "1", "2", "3", "4", "5"]]

/-- The family of sources around `badSrc`: one 9-field data row whose
`TL_x` cell is an arbitrary token. -/
def shortRowSrc (t : String) : List (List String) :=
  [["hdr"], ["meta"],
   ["det", "imgX", "f", t, "1", "2", "3", "4", "5"]]

/-- Tokenized source whose second data row has 12 fields, one more than
the width (11) established by its first data row. -/
def wideSrc : List (List String) :=
  [["hdr"], ["meta"],
   ["d", "img.jpg", "f", "0", "0", "0", "0", "0", "0", "sp", "1"],
   ["d", "img.jpg", "f", "0", "0", "0", "0", "0", "0", "sp", "1", "extra"]]

/-- Tokenized single-group source whose identifiers exercise the two
`.jpg`-removal examples of the specification. -/
def jpgSrc : List (List String) :=
  [["hdr"], ["meta"],
   ["d", "a.jpg.jpg", "f", "0", "0", "0", "0", "0", "0", "sp", "1"],
   ["d", "image.jpgfile", "f", "0", "0", "0", "0", "0", "0", "sp", "1"]]

/-- The rows of `jpgSrc` in the opposite order, to exhibit that the
output key order does not depend on first-appearance order. -/
def revJpgSrc : List (List String) :=
  [["hdr"], ["meta"],
   ["d", "image.jpgfile", "f", "0", "0", "0", "0", "0", "0", "sp", "1"],
   ["d", "a.jpg.jpg", "f", "0", "0", "0", "0", "0", "0", "sp", "1"]]

/-- The group record shared by both rows of `jpgSrc`. -/
def jpgRecord : PyVal :=
  PyVal.dict
    [("bbox", PyVal.list
       [PyVal.dict [("bbox", PyVal.list
          [PyVal.int 0, PyVal.int 0, PyVal.int 0, PyVal.int 0,
           PyVal.int 0, PyVal.int 0, PyVal.int 0, PyVal.int 0])]]),
     ("Species", PyVal.list [PyVal.str "sp"]),
     ("Confidence", PyVal.list [PyVal.int 1])]

/-- A demonstration vector layer for concrete runs of the export/upload
functions. -/
def demoLayer : Layer :=
  ⟨"lakes", LayerKind.vector, "Polygon", [("name", "String")], 3, "EPSG:4326",
   PyVal.nan, PyVal.nan, PyVal.nan, PyVal.nan, "/data/lakes.shp"⟩

/-- A demonstration HTTP 200 response. -/
def demoResp200 : HttpResp := ⟨200, PyVal.dict [("id", PyVal.int 12)], "raw-ok"⟩

/-- A demonstration HTTP 500 response. -/
def demoResp500 : HttpResp := ⟨500, PyVal.nan, "server exploded"⟩

/-- Shape probe telling a success dict from an error dict: its first key. -/
def firstKey : PyVal → Option String
  | PyVal.dict ((k, _) :: _) => some k
  | _ => none

/-- Did the call return normally (no exception raised)? -/
def isOkB : Except String (List (String × PyVal)) → Bool
  | Except.ok _ => true
  | Except.error _ => false

example : removeJpgStr "a.jpg.jpg" = "a" := rfl
example : removeJpgStr "image.jpgfile" = "imagefile" := rfl
example : removeJpgStr "img1.jpg" = "img1" := rfl
example : tokenIsInt "-42" = true := rfl
example : tokenIsInt "abc" = false := rfl
example : tokenToInt "-42" = -42 := rfl
example : tokenIsNum "-1.5e3" = true := rfl
example : tokenIsNum "7" = true := rfl
example : tokenIsNum ".5" = true := rfl
example : tokenIsNum "1." = true := rfl
example : tokenIsNum "abc" = false := rfl
example : tokenIsNum "1.2.3" = false := rfl
example : tokenIsNA "NaN" = true := rfl
example : tokenIsNA "imgX" = false := rfl
example : List.insertionSort StrLe ["b", "a", "c"] = ["a", "b", "c"] := rfl

/-! ## Pipeline lemmas -/

theorem annotIds_withBbox (rows : List (List PyVal)) :
    annotIds (withBbox rows) = annotIds rows := by
  induction rows with
  | nil => rfl
  | cons r t ih =>
    show annotIds ((r ++ [bboxParser r bboxColumns "bbox"]) :: withBbox t) = _
    unfold annotIds at ih ⊢
    rw [List.filterMap_cons, List.filterMap_cons]
    have himg : (match rowImg (r ++ [bboxParser r bboxColumns "bbox"]) with
        | PyVal.str s => some s
        | _ => none) =
        (match rowImg r with
        | PyVal.str s => some s
        | _ => none) := by
      match r with
      | [] => rfl
      | [a] => rfl
      | a :: b :: t' => rfl
    rw [himg, ih]

theorem annotIds_stripRows (rows : List (List PyVal)) :
    annotIds (stripRows rows) = (annotIds rows).map removeJpgStr := by
  induction rows with
  | nil => rfl
  | cons r t ih =>
    show annotIds (r.set 1 (jpgStrip ((r.get? 1).getD PyVal.nan)) :: stripRows t) = _
    unfold annotIds at ih ⊢
    rw [List.filterMap_cons, List.filterMap_cons]
    have hstep : (match rowImg (r.set 1 (jpgStrip ((r.get? 1).getD PyVal.nan))) with
        | PyVal.str s => some s
        | _ => none) =
        (match rowImg r with
        | PyVal.str s => some (removeJpgStr s)
        | _ => none) := by
      match r with
      | [] => rfl
      | [a] => rfl
      | a :: b :: t' =>
        show (match jpgStrip b with | PyVal.str s => some s | _ => none) = _
        cases b <;> rfl
    rw [hstep, ih]
    cases hr : rowImg r <;> simp

theorem groupKeys_sorted (rows : List (List PyVal)) :
    (groupKeys rows).Sorted StrLe :=
  List.sorted_insertionSort StrLe (annotIds rows).dedup

theorem groupKeys_nodup (rows : List (List PyVal)) :
    (groupKeys rows).Nodup :=
  (List.perm_insertionSort StrLe (annotIds rows).dedup).symm.nodup (annotIds rows).nodup_dedup

theorem mem_groupKeys {rows : List (List PyVal)} {s : String} :
    s ∈ groupKeys rows ↔ s ∈ annotIds rows := by
  unfold groupKeys
  rw [(List.perm_insertionSort StrLe (annotIds rows).dedup).mem_iff, List.mem_dedup]

theorem parseAnnot_ok_inv {src : List (List String)} {out : List (String × PyVal)}
    (h : parseAnnot src = Except.ok out) :
    out = (groupKeys (procRows src)).map fun k => (k, groupVal (procRows src) k) := by
  unfold parseAnnot at h
  unfold procRows frameOf
  cases hr : readCsv src with
  | error e =>
    rw [hr] at h
    exact Except.noConfusion h
  | ok frame =>
    rw [hr] at h
    have h' : (if (!frame.isEmpty && imgColAllNumeric frame) = true then
          (Except.error "AttributeError: Can only use .str accessor with string values" :
            Except String (List (String × PyVal)))
        else Except.ok ((groupKeys (withBbox (stripRows frame))).map fun k =>
          (k, groupVal (withBbox (stripRows frame)) k))) = Except.ok out := h
    show out = (groupKeys (withBbox (stripRows frame))).map fun k =>
      (k, groupVal (withBbox (stripRows frame)) k)
    by_cases hc : (!frame.isEmpty && imgColAllNumeric frame) = true
    · rw [if_pos hc] at h'
      exact Except.noConfusion h'
    · rw [if_neg hc] at h'
      injection h' with h'
      exact h'.symm

theorem parseAnnot_keys {src : List (List String)} {out : List (String × PyVal)}
    (h : parseAnnot src = Except.ok out) :
    out.map Prod.fst = groupKeys (procRows src) := by
  rw [parseAnnot_ok_inv h]
  simp [List.map_map, Function.comp_def]

/-! ## Claim theorems -/

/-- Claim C1 (confirmed): for every data row parsed by `parse_annotation`,
the bounding-box value is built from the row's coordinate fields in
exactly the order `[TL_x, BR_y, BR_x, BR_y, BR_x, TL_y, TL_x, TL_y]`,
regardless of the row's coordinate values: stated for an arbitrary row
via the column labels, and for an arbitrary 11-cell row through the
bbox-column step of the pipeline. -/
theorem c1_bbox_order :
    (∀ r : List PyVal, bboxParser r bboxColumns "bbox" =
      PyVal.dict [("bbox", PyVal.list
        [rowGet r "TL_x", rowGet r "BR_y", rowGet r "BR_x", rowGet r "BR_y",
         rowGet r "BR_x", rowGet r "TL_y", rowGet r "TL_x", rowGet r "TL_y"])]) ∧
    (∀ d i fr tlx tly brx bry dc tl sp cf : PyVal,
      withBbox [[d, i, fr, tlx, tly, brx, bry, dc, tl, sp, cf]] =
        [[d, i, fr, tlx, tly, brx, bry, dc, tl, sp, cf,
          PyVal.dict [("bbox", PyVal.list [tlx, bry, brx, bry, brx, tly, tlx, tly])]]]) :=
  ⟨fun _ => rfl, fun _ _ _ _ _ _ _ _ _ _ _ => rfl⟩

/-- Claim C2 counterexample: on the specification's worked example the
`bbox` entries are not bare 8-number lists; the output differs from the
claimed mapping (each entry is the single-key dict `bbox_parser` built). -/
theorem c2_bare_list_refuted : parseAnnot exSrc ≠ Except.ok [("img1", exClaimedRecord)] :=
  fun h => absurd (congrArg firstBboxIsDict h) (by decide)

/-- Claim C2 (corrected): on the worked example, `parse_annotation`
returns the mapping with key `img1`, Species `["tuna", "shark"]`,
Confidence `[1, 2]`, and bbox entries in the claimed coordinate order but
each wrapped as the single-key dict `{"bbox": [...]}` rather than a bare
list. -/
theorem c2_example_output : parseAnnot exSrc = Except.ok [("img1", exActualRecord)] := rfl

/-- Claim C3 (confirmed): `parse_annotation` normalizes every row's image
identifier by Python's substring replace of `.jpg` (all occurrences,
anywhere in the string), as witnessed in general by the identifier lists
of the pipeline, and concretely by `"a.jpg.jpg" ↦ "a"` and
`"image.jpgfile" ↦ "imagefile"`, both as string facts and through a full
parser run. -/
theorem c3_jpg_substring :
    (∀ src, annotIds (procRows src) = (annotIds (frameOf src)).map removeJpgStr) ∧
    removeJpgStr "a.jpg.jpg" = "a" ∧
    removeJpgStr "image.jpgfile" = "imagefile" ∧
    parseAnnot jpgSrc = Except.ok [("a", jpgRecord), ("imagefile", jpgRecord)] := by
  refine ⟨?_, rfl, rfl, rfl⟩
  intro src
  unfold procRows
  rw [annotIds_withBbox, annotIds_stripRows]

/-- Claim C4 (confirmed): on every successful parse the normalized
identifiers are unique keys; every processed row with a string identifier
falls under exactly one key; and each group's three lists are the
parallel projections of the group's rows in original row order, all of
length equal to the number of rows with that identifier. -/
theorem c4_grouping (src : List (List String)) (out : List (String × PyVal))
    (h : parseAnnot src = Except.ok out) :
    (out.map Prod.fst).Nodup ∧
    (∀ r ∈ procRows src, ∀ s, rowImg r = PyVal.str s → s ∈ out.map Prod.fst) ∧
    (∀ k v, (k, v) ∈ out →
      v = PyVal.dict
        [("bbox", PyVal.list (colList (rowsFor (procRows src) k) 11)),
         ("Species", PyVal.list (colList (rowsFor (procRows src) k) 9)),
         ("Confidence", PyVal.list (colList (rowsFor (procRows src) k) 10))] ∧
      (colList (rowsFor (procRows src) k) 11).length = (procRows src).countP (rowMatches k) ∧
      (colList (rowsFor (procRows src) k) 9).length = (procRows src).countP (rowMatches k) ∧
      (colList (rowsFor (procRows src) k) 10).length = (procRows src).countP (rowMatches k)) := by
  have hout := parseAnnot_ok_inv h
  have hkeys := parseAnnot_keys h
  refine ⟨hkeys ▸ groupKeys_nodup _, ?_, ?_⟩
  · intro r hr s hs
    rw [hkeys]
    refine mem_groupKeys.mpr (List.mem_filterMap.mpr ⟨r, hr, ?_⟩)
    rw [hs]
  · intro k v hkv
    rw [hout] at hkv
    obtain ⟨k', _, heq⟩ := List.mem_map.mp hkv
    have hk : k' = k := congrArg Prod.fst heq
    have hv : groupVal (procRows src) k' = v := congrArg Prod.snd heq
    subst hk
    refine ⟨hv ▸ rfl, ?_, ?_, ?_⟩ <;>
      simp [colList, rowsFor, List.countP_eq_length_filter]

/-- Claim C4 witness: the grouping theorem instantiated on the worked
example's parse, at key `img1`. -/
theorem c4_witness :
    exActualRecord = PyVal.dict
      [("bbox", PyVal.list (colList (rowsFor (procRows exSrc) "img1") 11)),
       ("Species", PyVal.list (colList (rowsFor (procRows exSrc) "img1") 9)),
       ("Confidence", PyVal.list (colList (rowsFor (procRows exSrc) "img1") 10))] ∧
    (colList (rowsFor (procRows exSrc) "img1") 11).length =
      (procRows exSrc).countP (rowMatches "img1") ∧
    (colList (rowsFor (procRows exSrc) "img1") 9).length =
      (procRows exSrc).countP (rowMatches "img1") ∧
    (colList (rowsFor (procRows exSrc) "img1") 10).length =
      (procRows exSrc).countP (rowMatches "img1") :=
  (c4_grouping exSrc [("img1", exActualRecord)] rfl).2.2 "img1" exActualRecord
    (List.mem_singleton.mpr rfl)

/-- Claim C5 counterexample: with a valid vector layer, a writer status
other than the `NoError` sentinel (code 7) and a 200 response,
`send_layer_as_geojson` does not fail with the claimed error mapping: it
proceeds with the upload and returns the success dict. -/
theorem c5_sentinel_refuted :
    sendLayerAsGeojson (some demoLayer) (WriteStatus.errCode 7) "gj" demoResp200 =
      PyVal.dict [("success", PyVal.str "Layer successfully sent to the API"),
                  ("response", demoResp200.jsonBody)] ∧
    firstKey (sendLayerAsGeojson (some demoLayer) (WriteStatus.errCode 7) "gj" demoResp200) ≠
      some "error" :=
  ⟨rfl, by decide⟩

/-- Claim C5 (corrected): `export_layer_to_geojson` treats any
non-sentinel writer status as failure with
`{"error": "Failed to export layer. Error code: <code>"}`;
`send_layer_as_geojson_using_gdal_` does so with the message
`"Failed to export layer to GPKG. Error code: <code>"`; but
`send_layer_as_geojson` ignores the writer status entirely and proceeds
with the upload regardless. -/
theorem c5_writer_status (l : Layer) (p : String) (c : Nat)
    (hv : l.kind = LayerKind.vector) :
    exportLayerToGeojson (some l) p (WriteStatus.errCode c) =
      PyVal.dict [("error",
        PyVal.str ("Failed to export layer. Error code: " ++ toString c))] ∧
    (∀ (df oo : Bool) (oe : Int) (d : String) (resp : HttpResp),
      sendLayerAsGeojsonViaGdal (some l) (WriteStatus.errCode c) df oo oe d resp =
        PyVal.dict [("error",
          PyVal.str ("Failed to export layer to GPKG. Error code: " ++ toString c))]) ∧
    (∀ (layer : Option Layer) (w w' : WriteStatus) (d : String) (resp : HttpResp),
      sendLayerAsGeojson layer w d resp = sendLayerAsGeojson layer w' d resp) := by
  refine ⟨?_, ?_, ?_⟩
  · simp [exportLayerToGeojson, hv]
  · intro df oo oe d resp
    simp [sendLayerAsGeojsonViaGdal, hv, WriteStatus.msgText]
  · intro layer w w' d resp
    rfl

/-- Claim C5 witness: the corrected statement instantiated on the
demonstration layer with writer error code 3. -/
theorem c5_witness :
    exportLayerToGeojson (some demoLayer) "/tmp" (WriteStatus.errCode 3) =
      PyVal.dict [("error",
        PyVal.str ("Failed to export layer. Error code: " ++ toString 3))] :=
  (c5_writer_status demoLayer "/tmp" 3 rfl).1

/-- Claim C6 (confirmed): in both upload functions a 200 response yields
the success dict whose `response` is the parsed JSON body, and any other
status yields `{"error": "Failed to send GeoJSON to API. Status code:
<code>", "response": <raw body text>}`. -/
theorem c6_http_branches (l : Layer) (w : WriteStatus) (d : String) (resp : HttpResp)
    (hv : l.kind = LayerKind.vector) :
    (resp.status = 200 →
      sendLayerAsGeojson (some l) w d resp =
        PyVal.dict [("success", PyVal.str "Layer successfully sent to the API"),
                    ("response", resp.jsonBody)] ∧
      sendLayerAsGeojsonViaGdal (some l) WriteStatus.noError true true 0 d resp =
        PyVal.dict [("success", PyVal.str "Layer successfully sent to the API"),
                    ("response", resp.jsonBody)]) ∧
    (resp.status ≠ 200 →
      sendLayerAsGeojson (some l) w d resp =
        PyVal.dict [("error", PyVal.str
            ("Failed to send GeoJSON to API. Status code: " ++ toString resp.status)),
          ("response", PyVal.str resp.rawText)] ∧
      sendLayerAsGeojsonViaGdal (some l) WriteStatus.noError true true 0 d resp =
        PyVal.dict [("error", PyVal.str
            ("Failed to send GeoJSON to API. Status code: " ++ toString resp.status)),
          ("response", PyVal.str resp.rawText)]) := by
  constructor
  · intro h200
    constructor <;> simp [sendLayerAsGeojson, sendLayerAsGeojsonViaGdal, hv, h200]
  · intro hne
    constructor <;> simp [sendLayerAsGeojson, sendLayerAsGeojsonViaGdal, hv, hne]

/-- Claim C6 witness: the branch theorem instantiated on the
demonstration layer and the 500 response. -/
theorem c6_witness :
    sendLayerAsGeojson (some demoLayer) WriteStatus.noError "gj" demoResp500 =
      PyVal.dict [("error", PyVal.str
          ("Failed to send GeoJSON to API. Status code: " ++ toString demoResp500.status)),
        ("response", PyVal.str demoResp500.rawText)] :=
  ((c6_http_branches demoLayer WriteStatus.noError "gj" demoResp500 rfl).2 (by decide)).1

/-- Claim C7 (confirmed): `get_layer_info` on a null/absent layer returns
exactly the mapping `{"error": "No active layer selected"}`, with no
other effect (the model is a pure function of the layer). -/
theorem c7_no_layer :
    getLayerInfo none = PyVal.dict [("error", PyVal.str "No active layer selected")] := rfl

/-- Claim C8 counterexample: `badSrc`'s single data row has only 9 fields
(violating the 11-column schema) and a non-numeric coordinate
`TL_x = "abc"`, yet `parse_annotation` raises nothing: it returns a
normal result, padding the missing `Species`/`Confidence` cells with NaN
and carrying the text `"abc"` into the bounding box. -/
theorem c8_no_error_raised :
    parseAnnot badSrc = Except.ok
      [("imgX", PyVal.dict
        [("bbox", PyVal.list
           [PyVal.dict [("bbox", PyVal.list
              [PyVal.str "abc", PyVal.int 3, PyVal.int 2, PyVal.int 3,
               PyVal.int 2, PyVal.int 1, PyVal.str "abc", PyVal.int 1])]]),
         ("Species", PyVal.list [PyVal.nan]),
         ("Confidence", PyVal.list [PyVal.nan])])] := rfl

/-- Claim C8 (corrected): a data row with fewer fields than the 11-column
schema raises no parsing error — whatever its `TL_x` token (numeric,
textual, or an NA spelling), the 9-field row of `shortRowSrc` parses
normally — and a non-numeric coordinate raises no type error (the
counterexample run carries the text into the bounding box). A parsing
error does occur exactly where pandas raises one: a data row wider than
the width established by the first data row. -/
theorem c8_deviant_rows :
    (∀ t : String, isOkB (parseAnnot (shortRowSrc t)) = true) ∧
    parseAnnot wideSrc = Except.error "ParserError: Expected 11 fields, saw 12" :=
  ⟨fun _ => rfl, rfl⟩

/-- Claim C9 (confirmed): the name `api_endpoint` is bound neither in the
scope of `convert_to_geojson_using_gdal` nor among the module globals, so
every call that passes the input/driver/creation checks reaches the
`requests.post(api_endpoint, ...)` step and fails with a `NameError`
instead of uploading. -/
theorem c9_unbound_endpoint :
    nameBound convertScopeNames moduleGlobals "api_endpoint" = false ∧
    ∀ (ip : String) (opo : Option String) (uh gd : String) (resp : HttpResp),
      convertToGeojsonViaGdal ip opo uh true true true gd resp =
        Except.error "NameError: name api_endpoint is not defined" :=
  ⟨rfl, fun _ _ _ _ _ => rfl⟩

/-- Claim C10 (confirmed): the output mapping enumerates its keys sorted
ascending in Python string order, without duplicates, containing exactly
the normalized identifiers; and the key sequence is invariant under any
permutation of the identifier multiset, hence independent of
first-appearance order. -/
theorem c10_key_order :
    (∀ src out, parseAnnot src = Except.ok out →
      (out.map Prod.fst).Sorted StrLe ∧
      (out.map Prod.fst).Nodup ∧
      (∀ s, s ∈ out.map Prod.fst ↔ s ∈ annotIds (procRows src))) ∧
    (∀ src₁ src₂ out₁ out₂,
      parseAnnot src₁ = Except.ok out₁ → parseAnnot src₂ = Except.ok out₂ →
      (annotIds (procRows src₁)).Perm (annotIds (procRows src₂)) →
      out₁.map Prod.fst = out₂.map Prod.fst) := by
  constructor
  · intro src out h
    rw [parseAnnot_keys h]
    exact ⟨groupKeys_sorted _, groupKeys_nodup _, fun _ => mem_groupKeys⟩
  · intro src₁ src₂ out₁ out₂ h1 h2 hperm
    rw [parseAnnot_keys h1, parseAnnot_keys h2]
    unfold groupKeys
    exact List.eq_of_perm_of_sorted
      (((List.perm_insertionSort _ _).trans hperm.dedup).trans
        (List.perm_insertionSort _ _).symm)
      (List.sorted_insertionSort _ _) (List.sorted_insertionSort _ _)

/-- Claim C10 witness: sortedness and uniqueness of the keys of the
`jpgSrc` parse. -/
theorem c10_witness :
    ([("a", jpgRecord), ("imagefile", jpgRecord)].map Prod.fst).Sorted StrLe ∧
    ([("a", jpgRecord), ("imagefile", jpgRecord)].map Prod.fst).Nodup :=
  ⟨(c10_key_order.1 jpgSrc [("a", jpgRecord), ("imagefile", jpgRecord)] rfl).1,
   (c10_key_order.1 jpgSrc [("a", jpgRecord), ("imagefile", jpgRecord)] rfl).2.1⟩
